import Mathlib

/-!
Verification development for the format-frenzy scoring service.

Shallow embedding of the comparison-and-scoring engine:
  * `src/scoring.py`  — `ASTFeatureExtractor`, `analyze_syntax_patterns`,
    `estimate_code_quality`, `compare_ast`, `score_response`;
  * `src/ast_analyzer.py` — `NodeLocator`, `find_missing_nodes`.

Python standard-library collaborators are modelled as an oracle (`PyEnv`):
`ast.parse` (a function from source text to a syntax tree or a syntax
error), `difflib.SequenceMatcher(...).ratio()` (an arbitrary rational),
and `re.search` (an arbitrary boolean per pattern/text pair).  Everything
the repository itself computes is embedded as executable Lean functions.
Floats are modelled by `ℚ`; Python `//` on non-negative ints is `Nat`
division.
-/

namespace FF

/-! ### Python-string primitives (char-list based, executable) -/

/-- Whitespace characters stripped by Python `str.strip`. -/
def isPySpace (c : Char) : Bool :=
  c = ' ' || c = '\t' || c = '\n' || c = '\r' || c = '\x0b' || c = '\x0c'

/-- Python `str.strip()`. -/
def pyStrip (s : String) : String :=
  String.mk (((s.data.dropWhile isPySpace).reverse.dropWhile isPySpace).reverse)

/-- Python `str.rstrip()`. -/
def pyStripRight (s : String) : String :=
  String.mk ((s.data.reverse.dropWhile isPySpace).reverse)

/-- Split a character list at newline characters (keeping empty parts),
the semantics of Python `str.split("\n")`. -/
def splitNlCL : List Char → List (List Char)
  | [] => [[]]
  | c :: rest =>
    let r := splitNlCL rest
    if c = '\n' then [] :: r
    else
      match r with
      | h :: t => (c :: h) :: t
      | [] => [[c]]

/-- Python `code.split("\n")`. -/
def pySplitNl (s : String) : List String :=
  (splitNlCL s.data).map (fun l => String.mk l)

/-- Python `str.splitlines()` restricted to `"\n"`-separated text (the
form it is applied to in the source: text already stripped of leading and
trailing whitespace).  The empty string yields `[]`. -/
def pySplitLines (s : String) : List String :=
  if s.data.isEmpty then [] else pySplitNl s

/-- Does `hay` start with `needle` (character lists)? -/
def startsWithCL : List Char → List Char → Bool
  | [], _ => true
  | _ :: _, [] => false
  | n :: ns, h :: hs => n = h && startsWithCL ns hs

/-- Python `needle in hay` substring test (character lists). -/
def containsCL (needle : List Char) : List Char → Bool
  | [] => needle.isEmpty
  | h :: t => startsWithCL needle (h :: t) || containsCL needle t

/-- Python `kw in code` on strings. -/
def containsSub (hay needle : String) : Bool :=
  containsCL needle.data hay.data

/-- Python `code.count(c)` for a single character. -/
def countChar (s : String) (c : Char) : Nat :=
  s.data.count c

/-- Python `line.startswith(c)` for a single character. -/
def headIs (s : String) (c : Char) : Bool :=
  match s.data with
  | [] => false
  | d :: _ => d = c

/-- Python `line.endswith(c)` for a single character. -/
def lastIs (s : String) (c : Char) : Bool :=
  match s.data.reverse with
  | [] => false
  | d :: _ => d = c

/-! ### Syntax-tree model

A Python `ast` node, as far as the engine inspects one: its class name
(`node.__class__.__name__`), the named-entity data used by the feature
extractor (`FunctionDef.name`, `ClassDef.name`, `Import.names`,
`ImportFrom.module`, `Call.func.id` when present), its location
attributes (`lineno`/`col_offset` when the node has them;
`end_lineno`/`end_col_offset` optional, as read through `getattr`), and
its child nodes.  Children are a mutually-inductive forest so that all
tree recursions are structural. -/

/-- Location attributes of a node that `hasattr(node, "lineno")`. -/
structure Span where
  lineno : Nat
  col_offset : Nat
  end_lineno : Option Nat
  end_col_offset : Option Nat
deriving DecidableEq

/-- Node payload distinguishing the node classes the engine treats
specially; every other class is `otherNode` with its class name. -/
inductive NodeKind where
  | funcDef (name : String)
  | clsDef (name : String)
  | impStmt (names : List String)
  | impFrom (module : Option String)
  | callIdent (funcId : Option String)
  | otherNode (typeName : String)
deriving DecidableEq

mutual
inductive PyTree where
  | node (kind : NodeKind) (span : Option Span) (children : PyForest)
inductive PyForest where
  | nil
  | cons (hd : PyTree) (tl : PyForest)
end

/-- The node's class name, Python `node.__class__.__name__`. -/
def NodeKind.typeName : NodeKind → String
  | .funcDef _ => "FunctionDef"
  | .clsDef _ => "ClassDef"
  | .impStmt _ => "Import"
  | .impFrom _ => "ImportFrom"
  | .callIdent _ => "Call"
  | .otherNode s => s

def PyTree.kindOf : PyTree → NodeKind
  | .node k _ _ => k

def PyTree.spanOf : PyTree → Option Span
  | .node _ sp _ => sp

def PyTree.typeNameOf : PyTree → String
  | .node k _ _ => k.typeName

mutual
/-- Flatten a tree to the list of all its nodes (`ast.walk`).  `ast.walk`
yields nodes breadth-first; this flattening is depth-first pre-order.  The
engine uses the walk only to build per-type counts (and their dict key
order): the counts agree under both orders, while the key order — which
fixes only the relative order of `find_missing_nodes` issues across
distinct deficient types — is first-occurrence order of the respective
traversal. -/
def walkT : PyTree → List PyTree
  | .node k sp cs => .node k sp cs :: walkF cs
def walkF : PyForest → List PyTree
  | .nil => []
  | .cons t f => walkT t ++ walkF f
end

def joinComma : List String → String
  | [] => ""
  | h :: t => t.foldl (fun a s => a ++ "," ++ s) h

/-- Canonical serialization of the named-entity data of one node. -/
def dumpKind : NodeKind → String
  | .funcDef n => "FunctionDef:" ++ n
  | .clsDef n => "ClassDef:" ++ n
  | .impStmt ns => "Import:" ++ joinComma ns
  | .impFrom m => "ImportFrom:" ++ (match m with | some s => s | none => "None")
  | .callIdent f => "Call:" ++ (match f with | some s => s | none => "_")
  | .otherNode s => s

mutual
/-- Canonical attribute-free serialization of a tree, the model of
`ast.dump(tree, include_attributes=False)`: a deterministic rendering of
the tree shape and named-entity data that ignores all location
attributes. -/
def dump : PyTree → String
  | .node k _ cs => dumpKind k ++ "(" ++ joinComma (dumpF cs) ++ ")"
def dumpF : PyForest → List String
  | .nil => []
  | .cons t f => dump t :: dumpF f
end

/-! ### Oracle for the Python standard library -/

/-- Data carried by a raised `SyntaxError`. -/
structure SyntaxErr where
  lineno : Nat
  offset : Nat
  msg : String
deriving DecidableEq

/-- The engine's external collaborators: `ast.parse` (deterministic:
source text to tree or syntax error), `difflib.SequenceMatcher(None, a,
b).ratio()`, and `re.search(pattern, text)` viewed as a boolean. -/
structure PyEnv where
  parse : String → Except SyntaxErr PyTree
  seqSim : String → String → ℚ
  reSearch : String → String → Bool

/-! ### `src/scoring.py` — constants (lines 7–27) -/

/-- Python `EXACT_MATCH_SCORE = 27.0` (written `27` so the literal is in
normal form). -/
def EXACT_MATCH_SCORE : ℚ := 27
def HIGH_SIMILARITY_MULTIPLIER : ℚ := 4
def HIGH_SIMILARITY_DIVISOR : ℕ := 8
def HIGH_SIMILARITY_THRESHOLD : ℚ := 0.85
def INTERPRETABLE_MULTIPLIER : ℚ := 1
def INTERPRETABLE_DIVISOR : ℕ := 7
def INTERPRETABLE_THRESHOLD : ℚ := 0.3
def VALID_WRONG_INTENT_SCORE : ℚ := 0
def GARBAGE_MULTIPLIER : ℚ := -1
def GARBAGE_DIVISOR : ℕ := 7

def CODE_STRUCTURE_KEYWORDS : List String :=
  ["def", "return", "for", "if", "while", "class", "import", "with", "try"]

def SYNTAX_PATTERNS : List (String × String) :=
  [("function", "def\\s+\\w+\\s*\\("),
   ("class", "class\\s+\\w+"),
   ("import", "(import|from)\\s+[\\w\\.]+"),
   ("loop", "(for|while)\\s+.+:"),
   ("condition", "if\\s+.+:")]

/-! ### `src/scoring.py` — `ASTFeatureExtractor` (lines 29–81)

A feature multiset is represented by the list of feature keys emitted
during the walk, one entry per `Counter` increment; the count of a key is
`List.count`, the total of all counts is the list length. -/

/-- Feature keys emitted for one node (`extract_features` loop body). -/
def nodeFeatures (t : PyTree) : List String :=
  t.typeNameOf ::
    (match t.kindOf with
     | .funcDef n => ["func:" ++ n]
     | .clsDef n => ["class:" ++ n]
     | .impStmt ns => ns.map (fun n => "import:" ++ n)
     | .impFrom m => ["import_from:" ++ (match m with | some s => s | none => "None")]
     | .callIdent f => (match f with | some s => ["call:" ++ s] | none => [])
     | .otherNode _ => [])

/-- `ASTFeatureExtractor.extract_features`.  One `Counter` increment per
emitted key. -/
def extract_features (tree : PyTree) : List String :=
  (walkT tree).flatMap nodeFeatures

/-- `ASTFeatureExtractor.similarity_score` (lines 62–81). -/
def similarity_score (features1 features2 : List String) : ℚ :=
  let all_keys := (features1 ++ features2).dedup
  if all_keys = [] then 1.0
  else
    let differences : ℕ :=
      (all_keys.map (fun key =>
        ((features1.count key : ℤ) - (features2.count key : ℤ)).natAbs)).sum
    let total_features : ℕ := features1.length + features2.length
    if total_features = 0 then 1.0
    else max (0.0 : ℚ) (min (1.0 : ℚ)
      (1.0 - (differences : ℚ) / ((total_features : ℚ) + (all_keys.length : ℚ))))

/-! ### `src/scoring.py` — heuristic fallback (lines 83–132) -/

/-- `analyze_syntax_patterns` (lines 83–91): the ordered dict of pattern
name to `bool(re.search(pattern, code))`. -/
def analyze_syntax_patterns (env : PyEnv) (code : String) : List (String × Bool) :=
  SYNTAX_PATTERNS.map (fun p => (p.1, env.reSearch p.2 code))

def assignSearchPat : String := "[^=!<>]=[^=]"
def defDefaultArgPat : String := "def\\s+\\w+\\s*\\([^)]*="

/-- Lines 98–127 of `estimate_code_quality`: the accumulated
`pattern_score` and `issues` just before the final multiplication. -/
def ecqSteps (env : PyEnv) (code : String) : ℚ × List String :=
  let patterns := analyze_syntax_patterns env code
  let pattern_score0 : ℚ :=
    ((patterns.filter (fun p => p.2)).length : ℚ) / (patterns.length : ℚ)
  let kwMissing : Bool := ! (CODE_STRUCTURE_KEYWORDS.any (fun kw => containsSub code kw))
  let pattern_score1 : ℚ := if kwMissing then pattern_score0 * 0.5 else pattern_score0
  let issues1 : List String :=
    if kwMissing then ["No recognizable code structures found"] else []
  let issues2 := issues1 ++
    (if countChar code ('(') ≠ countChar code (')') then ["Unbalanced parentheses"] else [])
  let issues3 := issues2 ++
    (if countChar code ('\x7b') ≠ countChar code ('\x7d') then ["Unbalanced braces"] else [])
  let issues4 := issues3 ++
    (if countChar code ('[') ≠ countChar code (']') then ["Unbalanced brackets"] else [])
  let lines := pySplitNl code
  let has_indentation := lines.any (fun line => headIs line (' ') || headIs line ('\t'))
  let indentIssue : Bool :=
    !has_indentation && lines.any (fun line => lastIs (pyStripRight line) (':'))
  let pattern_score2 : ℚ := if indentIssue then pattern_score1 * 0.8 else pattern_score1
  let issues5 := issues4 ++ (if indentIssue then ["Missing indentation after blocks"] else [])
  let pattern_score3 : ℚ :=
    if env.reSearch assignSearchPat code && ! env.reSearch defDefaultArgPat code then
      max pattern_score2 0.3
    else pattern_score2
  (pattern_score3, issues5)

/-- `estimate_code_quality` (lines 93–132): the accumulated steps
followed by `quality_score = pattern_score * (0.8 if issues else 1.0)`. -/
def estimate_code_quality (env : PyEnv) (code : String) : ℚ × List String :=
  let r := ecqSteps env code
  (r.1 * (if r.2 ≠ [] then (0.8 : ℚ) else 1.0), r.2)

/-! ### `src/scoring.py` — `score_response` (lines 217–245) -/

structure Issue where
  line_number : Nat
  column : Option Nat
  end_line_number : Option Nat
  end_column : Option Nat
  message : String
deriving DecidableEq

structure Feedback where
  message : String
  issues : List Issue
deriving DecidableEq

structure ScoreResult where
  exact_match : Bool
  score : ℚ
  feedback : Feedback
deriving DecidableEq

/-- `score_response(exact, score, messages)`. -/
def score_response (exact : Bool) (score : ℚ) (messages : List String) : ScoreResult :=
  { exact_match := exact
    score := score
    feedback :=
      { message := if exact then "Perfect match!" else "Review your code structure."
        issues := messages.map (fun msg =>
          { line_number := 1
            column := none
            end_line_number := none
            end_column := none
            message := msg }) } }

/-! ### `src/scoring.py` — `compare_ast` (lines 134–215) -/

/-- Line 143–145: `line_count = max(1, len(user_code.strip().splitlines()))`. -/
def lineCountOf (user_code : String) : ℕ :=
  max 1 (pySplitLines (pyStrip user_code)).length

def returnTag : String := "Return"
def ifTag : String := "If"
def forTag : String := "For"
def importKeyTag : String := "import:"

/-- Does a feature key start with `import:` (the dict-comprehension filter
`k.startswith("import:")` of lines 182–183)? -/
def isImportKey (k : String) : Bool :=
  startsWithCL importKeyTag.data k.data

/-- The specific structural issues identified at lines 172–185: missing
return/conditional/loop constructs by count comparison, and the special
case of a reference with `import:` keys while the submission has none. -/
def parsedIssues (user_features correct_features : List String) : List String :=
  (if user_features.count returnTag < correct_features.count returnTag then
    ["Missing return statements"] else []) ++
  (if user_features.count ifTag < correct_features.count ifTag then
    ["Missing conditional statements"] else []) ++
  (if user_features.count forTag < correct_features.count forTag then
    ["Missing loop structures"] else []) ++
  (if (correct_features.any isImportKey) && ! (user_features.any isImportKey) then
    ["Missing required imports"] else [])

/-- The body of `compare_ast`'s `try` block after both parses succeeded
(lines 151–198). -/
def parsedCompare (env : PyEnv) (line_count : ℕ) (user_ast correct_ast : PyTree) :
    ScoreResult :=
  let user_features := extract_features user_ast
  let correct_features := extract_features correct_ast
  let feature_sim := similarity_score user_features correct_features
  let user_dump := dump user_ast
  let correct_dump := dump correct_ast
  if user_dump = correct_dump then
    score_response true EXACT_MATCH_SCORE []
  else
    let text_sim := env.seqSim user_dump correct_dump
    let sim_combined := 0.7 * feature_sim + 0.3 * text_sim
    let issues : List String := parsedIssues user_features correct_features
    let score : ℚ :=
      if sim_combined > HIGH_SIMILARITY_THRESHOLD then
        HIGH_SIMILARITY_MULTIPLIER * ((line_count / HIGH_SIMILARITY_DIVISOR : ℕ) : ℚ)
      else if sim_combined > INTERPRETABLE_THRESHOLD then
        INTERPRETABLE_MULTIPLIER * ((line_count / INTERPRETABLE_DIVISOR : ℕ) : ℚ)
      else
        VALID_WRONG_INTENT_SCORE
    score_response false score
      (if issues = [] then ["Structure differs from expected solution"] else issues)

/-- The `except SyntaxError` block of `compare_ast` (lines 200–215). -/
def noParseFallback (env : PyEnv) (user_code : String) (line_count : ℕ) : ScoreResult :=
  let r := estimate_code_quality env user_code
  if r.1 > HIGH_SIMILARITY_THRESHOLD then
    score_response false
      (HIGH_SIMILARITY_MULTIPLIER * ((line_count / HIGH_SIMILARITY_DIVISOR : ℕ) : ℚ))
      (("Minor syntax errors") :: r.2)
  else if r.1 > INTERPRETABLE_THRESHOLD then
    score_response false
      (INTERPRETABLE_MULTIPLIER * ((line_count / INTERPRETABLE_DIVISOR : ℕ) : ℚ))
      (("Code structure somewhat interpretable, but syntax is invalid") :: r.2)
  else
    score_response false
      (GARBAGE_MULTIPLIER * ((line_count / GARBAGE_DIVISOR : ℕ) : ℚ))
      (("Code is nonsensical or unrecognizable") :: r.2)

/-- `compare_ast(user_code, correct_code)` (lines 134–215).  The whole
`try` block — including *both* `ast.parse` calls — is guarded by a single
`except SyntaxError`, so a parse failure on either input (the submission
or the reference) lands in the heuristic fallback; the function itself
never lets a `SyntaxError` escape, hence never produces `.error`. -/
def compare_ast (env : PyEnv) (user_code correct_code : String) :
    Except SyntaxErr ScoreResult :=
  let line_count := lineCountOf user_code
  match env.parse user_code, env.parse correct_code with
  | .ok user_ast, .ok correct_ast =>
    .ok (parsedCompare env line_count user_ast correct_ast)
  | _, _ =>
    .ok (noParseFallback env user_code line_count)

/-! ### `src/ast_analyzer.py` — `NodeLocator` and `find_missing_nodes` -/

/-- A recorded node location (`NodeLocator.generic_visit`, lines 13–30):
`end_lineno` defaults to `lineno`, `end_col_offset` defaults to the
length of source line `lineno` when that line exists, else `0`. -/
structure LocEntry where
  lineno : Nat
  col_offset : Nat
  end_lineno : Nat
  end_col_offset : Nat
deriving DecidableEq

def mkLocEntry (source_code : List String) (sp : Span) : LocEntry :=
  { lineno := sp.lineno
    col_offset := sp.col_offset
    end_lineno := sp.end_lineno.getD sp.lineno
    end_col_offset := sp.end_col_offset.getD
      (if sp.lineno ≤ source_code.length
       then (source_code.getD (sp.lineno - 1) "").length else 0) }

/-- Python `d.get(k, dflt)` over an insertion-ordered association list. -/
def dictLookup {α : Type} (d : List (String × α)) (k : String) (dflt : α) : α :=
  match d.find? (fun p => p.1 = k) with
  | some p => p.2
  | none => dflt

/-- Python `k in d` over an insertion-ordered association list. -/
def dictHasKey {α : Type} (d : List (String × α)) (k : String) : Bool :=
  d.any (fun p => p.1 = k)

/-- Python `d[k] = d.get(k, 0) + 1`. -/
def bumpCount (d : List (String × Nat)) (k : String) : List (String × Nat) :=
  if dictHasKey d k then
    d.map (fun p => if p.1 = k then (p.1, p.2 + 1) else p)
  else d ++ [(k, 1)]

/-- Per-class-name node counts of a tree, Python's
`for node in ast.walk(tree): d[type(node).__name__] += 1` dict. -/
def countTypes (tree : PyTree) : List (String × Nat) :=
  (walkT tree).foldl (fun d n => bumpCount d n.typeNameOf) []

/-- Python `self.node_locations.setdefault(t, []).append(e)` shape
(lines 16–28): insert the key on first use, then append. -/
def pushLoc (d : List (String × List LocEntry)) (k : String) (e : LocEntry) :
    List (String × List LocEntry) :=
  if dictHasKey d k then
    d.map (fun p => if p.1 = k then (p.1, p.2 ++ [e]) else p)
  else d ++ [(k, [e])]

mutual
/-- `NodeLocator.generic_visit` traversal: record the location of every
node that has a `lineno`, parent before children, in visit order. -/
def locVisitT (src : List String) : PyTree → List (String × List LocEntry) →
    List (String × List LocEntry)
  | .node k sp cs, d =>
    let d1 :=
      match sp with
      | some s => pushLoc d k.typeName (mkLocEntry src s)
      | none => d
    locVisitF src cs d1
def locVisitF (src : List String) : PyForest → List (String × List LocEntry) →
    List (String × List LocEntry)
  | .nil, d => d
  | .cons t f, d => locVisitF src f (locVisitT src t d)
end

/-- The feedback message `f"Missing {missing_count} {node_type} node(s)"`. -/
def missingMsg (missing_count : Nat) (node_type : String) : String :=
  "Missing " ++ toString missing_count ++ " " ++ node_type ++ " node(s)"

/-- The body of `find_missing_nodes` after both parses succeeded
(lines 37–82): count node types on both sides, index the reference's
locations, and emit one issue per under-represented type. -/
def findMissingCore (user_tree correct_tree : PyTree) (correct_code : String) : List Issue :=
  let user_node_types := countTypes user_tree
  let correct_node_types := countTypes correct_tree
  let node_locations := locVisitT (pySplitNl correct_code) correct_tree []
  correct_node_types.foldl (fun issues tc =>
    let node_type := tc.1
    let count := tc.2
    let user_count := dictLookup user_node_types node_type 0
    if user_count < count then
      let message := missingMsg (count - user_count) node_type
      if h : dictHasKey node_locations node_type ∧
          (dictLookup node_locations node_type []).length ≥ user_count + 1 then
        issues ++ [{ line_number :=
                       ((dictLookup node_locations node_type []).get
                         ⟨user_count, h.2⟩).lineno
                     column := some ((dictLookup node_locations node_type []).get
                         ⟨user_count, h.2⟩).col_offset
                     end_line_number := some ((dictLookup node_locations node_type []).get
                         ⟨user_count, h.2⟩).end_lineno
                     end_column := some ((dictLookup node_locations node_type []).get
                         ⟨user_count, h.2⟩).end_col_offset
                     message := message }]
      else
        issues ++ [{ line_number := 1
                     column := none
                     end_line_number := none
                     end_column := none
                     message := message }]
    else issues) []

/-- `find_missing_nodes(user_code, correct_code)` (lines 32–82).  Parse
failures propagate to the caller (there is no `except` here). -/
def find_missing_nodes (env : PyEnv) (user_code correct_code : String) :
    Except SyntaxErr (List Issue) :=
  match env.parse user_code with
  | .error e => .error e
  | .ok user_tree =>
    match env.parse correct_code with
    | .error e => .error e
    | .ok correct_tree => .ok (findMissingCore user_tree correct_tree correct_code)

/-! ### Concrete witness data

A small concrete `PyEnv` instance: a parser defined on four fixed source
texts (with trees shaped like CPython's for those texts), syntax error
everywhere else; a sequence-matcher stub returning `0`; a regex oracle
matching nothing. -/

/-- Tree of `"pass"`: `Module([Pass])`. -/
def wTreePass : PyTree :=
  .node (.otherNode ("Module")) none
    (.cons (.node (.otherNode ("Pass")) (some ⟨1, 0, some 1, some 4⟩) .nil) .nil)

/-- Tree of `"pass\nbreak"`: `Module([Pass, Break])`. -/
def wTree1 : PyTree :=
  .node (.otherNode ("Module")) none
    (.cons (.node (.otherNode ("Pass")) (some ⟨1, 0, some 1, some 4⟩) .nil)
      (.cons (.node (.otherNode ("Break")) (some ⟨2, 0, some 2, some 5⟩) .nil) .nil))

/-- Tree of `"break\npass"`: `Module([Break, Pass])`. -/
def wTree2 : PyTree :=
  .node (.otherNode ("Module")) none
    (.cons (.node (.otherNode ("Break")) (some ⟨1, 0, some 1, some 5⟩) .nil)
      (.cons (.node (.otherNode ("Pass")) (some ⟨2, 0, some 2, some 4⟩) .nil) .nil))

def wSelfStr : String := "pass"
def wSubStr : String := "pass\nbreak"
def wRefStr : String := "break\npass"
def wRefBadStr : String := "def f("
def wRefBad2Str : String := "while True"
def wGarbStr : String := "???"
def wErr : SyntaxErr := { lineno := 1, offset := 1, msg := "invalid syntax" }

def wEnv : PyEnv where
  parse := fun s =>
    if s = "pass" then .ok wTreePass
    else if s = "pass\nbreak" then .ok wTree1
    else if s = "break\npass" then .ok wTree2
    else .error wErr
  seqSim := fun _ _ => 0
  reSearch := fun _ _ => false

/-! ### General structural lemmas about the engine -/

/-- Every issue record built by `score_response` sits at line 1 with no
column or end information. -/
theorem score_response_issue_shape (exact : Bool) (s : ℚ) (msgs : List String) :
    (score_response exact s msgs).feedback.issues.all
      (fun i => i.line_number == 1 && i.column.isNone && i.end_line_number.isNone &&
        i.end_column.isNone) = true := by
  simp only [score_response, List.all_eq_true, List.mem_map]
  rintro i ⟨msg, _, rfl⟩
  rfl

/-- The `except SyntaxError` block returns one of the three fallback
tiers, always a non-exact response with a non-empty message list. -/
theorem noParseFallback_shape (env : PyEnv) (u : String) (lc : ℕ) :
    ∃ s msgs, msgs ≠ [] ∧ noParseFallback env u lc = score_response false s msgs ∧
      (s = HIGH_SIMILARITY_MULTIPLIER * ((lc / HIGH_SIMILARITY_DIVISOR : ℕ) : ℚ) ∨
       s = INTERPRETABLE_MULTIPLIER * ((lc / INTERPRETABLE_DIVISOR : ℕ) : ℚ) ∨
       s = VALID_WRONG_INTENT_SCORE ∨
       s = GARBAGE_MULTIPLIER * ((lc / GARBAGE_DIVISOR : ℕ) : ℚ)) := by
  simp only [noParseFallback]
  split
  · exact ⟨_, _, by simp, rfl, Or.inl rfl⟩
  · split
    · exact ⟨_, _, by simp, rfl, Or.inr (Or.inl rfl)⟩
    · exact ⟨_, _, by simp, rfl, Or.inr (Or.inr (Or.inr rfl))⟩

/-- The parsed branch returns either the exact-match response or a
non-exact response with a non-empty message list and a tier score. -/
theorem parsedCompare_shape (env : PyEnv) (lc : ℕ) (ua ca : PyTree) :
    parsedCompare env lc ua ca = score_response true EXACT_MATCH_SCORE [] ∨
      ∃ s msgs, msgs ≠ [] ∧ parsedCompare env lc ua ca = score_response false s msgs ∧
        (s = HIGH_SIMILARITY_MULTIPLIER * ((lc / HIGH_SIMILARITY_DIVISOR : ℕ) : ℚ) ∨
         s = INTERPRETABLE_MULTIPLIER * ((lc / INTERPRETABLE_DIVISOR : ℕ) : ℚ) ∨
         s = VALID_WRONG_INTENT_SCORE ∨
         s = GARBAGE_MULTIPLIER * ((lc / GARBAGE_DIVISOR : ℕ) : ℚ)) := by
  simp only [parsedCompare]
  split
  · exact Or.inl rfl
  · refine Or.inr ⟨_, _, ?_, rfl, ?_⟩
    · split <;> simp_all
    · split
      · exact Or.inl rfl
      · split
        · exact Or.inr (Or.inl rfl)
        · exact Or.inr (Or.inr (Or.inl rfl))

/-- `compare_ast` always returns `.ok`, and the result is the exact-match
response or a non-exact response with non-empty messages and a tier
score. -/
theorem compare_ast_shape (env : PyEnv) (u c : String) :
    compare_ast env u c = Except.ok (score_response true EXACT_MATCH_SCORE []) ∨
      ∃ s msgs, msgs ≠ [] ∧
        compare_ast env u c = Except.ok (score_response false s msgs) ∧
        (s = HIGH_SIMILARITY_MULTIPLIER * ((lineCountOf u / HIGH_SIMILARITY_DIVISOR : ℕ) : ℚ) ∨
         s = INTERPRETABLE_MULTIPLIER * ((lineCountOf u / INTERPRETABLE_DIVISOR : ℕ) : ℚ) ∨
         s = VALID_WRONG_INTENT_SCORE ∨
         s = GARBAGE_MULTIPLIER * ((lineCountOf u / GARBAGE_DIVISOR : ℕ) : ℚ)) := by
  unfold compare_ast
  rcases hu : env.parse u with e | ut <;> rcases hc : env.parse c with e2 | ct
  case error.error | error.ok | ok.error =>
    obtain ⟨s, msgs, h1, h2, h3⟩ := noParseFallback_shape env u (lineCountOf u)
    exact Or.inr ⟨s, msgs, h1, by rw [← h2], h3⟩
  case ok.ok =>
    rcases parsedCompare_shape env (lineCountOf u) ut ct with h | ⟨s, msgs, h1, h2, h3⟩
    · exact Or.inl (by rw [← h])
    · exact Or.inr ⟨s, msgs, h1, by rw [← h2], h3⟩

/-- Multiset similarity is `1` whenever the two feature lists have equal
counts everywhere (e.g. permutations of one another) and are non-empty. -/
theorem similarity_self_counts (f1 f2 : List String)
    (h : ∀ k, f1.count k = f2.count k) (hne : f1 ≠ []) :
    similarity_score f1 f2 = 1 := by
  simp only [similarity_score]
  have hded : ¬((f1 ++ f2).dedup = []) := by
    rw [List.dedup_eq_nil, List.append_eq_nil]
    rintro ⟨h1, _⟩
    exact hne h1
  rw [if_neg hded]
  have htot : ¬(f1.length + f2.length = 0) := by
    intro hh
    exact hne (List.length_eq_zero.1 (by omega))
  rw [if_neg htot]
  have hsum : ((f1 ++ f2).dedup.map (fun key =>
      ((f1.count key : ℤ) - (f2.count key : ℤ)).natAbs)).sum = 0 := by
    apply List.sum_eq_zero
    intro x hx
    rcases List.mem_map.1 hx with ⟨k, _, rfl⟩
    rw [h k]
    simp
  rw [hsum]
  norm_num

/-! ### Concrete evaluations at the witness inputs -/

theorem wFeatures1 : extract_features wTree1 = ["Module", "Pass", "Break"] := by decide

theorem wFeatures2 : extract_features wTree2 = ["Module", "Break", "Pass"] := by decide

theorem wSimOne :
    similarity_score (extract_features wTree1) (extract_features wTree2) = 1 := by
  rw [wFeatures1, wFeatures2]
  refine similarity_self_counts _ _ (fun k => List.Perm.count_eq ?_ k) (by decide)
  exact List.Perm.cons _ (List.Perm.swap ("Break") ("Pass") [])

/-- Full evaluation of `compare_ast` on the two parseable witness texts:
equal multisets but different dumps, stub text similarity `0`, hence the
interpretable tier with the generic fallback message. -/
theorem wCompareEval : compare_ast wEnv wSubStr wRefStr =
    Except.ok (score_response false
      (INTERPRETABLE_MULTIPLIER * ((lineCountOf wSubStr / INTERPRETABLE_DIVISOR : ℕ) : ℚ))
      ["Structure differs from expected solution"]) := by
  have hu : wEnv.parse wSubStr = Except.ok wTree1 := rfl
  have hc : wEnv.parse wRefStr = Except.ok wTree2 := rfl
  unfold compare_ast
  rw [hu, hc]
  simp only [parsedCompare]
  rw [if_neg (by decide : ¬(dump wTree1 = dump wTree2))]
  rw [show parsedIssues (extract_features wTree1) (extract_features wTree2) = [] by decide]
  rw [if_pos rfl]
  rw [wSimOne]
  rw [show wEnv.seqSim (dump wTree1) (dump wTree2) = 0 from rfl]
  rw [if_neg (by norm_num [HIGH_SIMILARITY_THRESHOLD]),
    if_pos (by norm_num [INTERPRETABLE_THRESHOLD])]

set_option maxHeartbeats 1000000 in
/-- The accumulated pattern score of the heuristic estimator stays within
`[0, 1]` through every step. -/
theorem ecqSteps_bounds (env : PyEnv) (code : String) :
    0 ≤ (ecqSteps env code).1 ∧ (ecqSteps env code).1 ≤ 1 := by
  have hlen : ((analyze_syntax_patterns env code).length : ℚ) = 5 := by
    simp [analyze_syntax_patterns, SYNTAX_PATTERNS]
  have hfle : (((analyze_syntax_patterns env code).filter (fun p => p.2)).length : ℚ) ≤ 5 := by
    rw [← hlen]
    exact_mod_cast List.length_filter_le _ _
  simp only [ecqSteps]
  set q : ℚ := (((analyze_syntax_patterns env code).filter (fun p => p.2)).length : ℚ) /
    ((analyze_syntax_patterns env code).length : ℚ) with hq
  have h0 : 0 ≤ q := by
    rw [hq]
    positivity
  have h1 : q ≤ 1 := by
    rw [hq, hlen, div_le_one (by norm_num)]
    exact hfle
  split_ifs <;>
    refine ⟨?_, ?_⟩ <;>
    first
      | nlinarith [h0, h1]
      | exact le_trans (by norm_num) (le_max_right _ _)
      | exact max_le (by nlinarith [h0, h1]) (by norm_num)

/-- Heuristic quality of the garbage witness text evaluates to `0`. -/
theorem wGarbQuality : (estimate_code_quality wEnv wGarbStr).1 ≤ 0.3 := by
  have h1 : ((analyze_syntax_patterns wEnv wGarbStr).filter (fun p => p.2)).length = 0 := by
    decide
  have h2 : (analyze_syntax_patterns wEnv wGarbStr).length = 5 := by decide
  have h3 : (CODE_STRUCTURE_KEYWORDS.any (fun kw => containsSub wGarbStr kw)) = false := by
    decide
  have h4 : countChar wGarbStr ('(') = countChar wGarbStr (')') := by decide
  have h5 : countChar wGarbStr ('\x7b') = countChar wGarbStr ('\x7d') := by decide
  have h6 : countChar wGarbStr ('[') = countChar wGarbStr (']') := by decide
  have h7 : (pySplitNl wGarbStr).any
      (fun line => headIs line (' ') || headIs line ('\t')) = false := by decide
  have h9 : (pySplitNl wGarbStr).any
      (fun line => lastIs (pyStripRight line) (':')) = false := by decide
  have h8 : wEnv.reSearch assignSearchPat wGarbStr = false := rfl
  simp [estimate_code_quality, ecqSteps, h1, h2, h3, h4, h5, h6, h7, h8, h9]
  norm_num

/-! ### Claim theorems -/

/-- C1, counterexample.  With a parseable submission and a reference
that fails to parse, `compare_ast` does not propagate the reference's
parse error: it returns normally with the heuristic no-parse fallback
result — contradicting the claim that a reference parse error is
propagated with no fallback scoring. -/
theorem claim1_counterexample :
    wEnv.parse wRefBadStr = Except.error wErr ∧
    compare_ast wEnv wSubStr wRefBadStr =
      Except.ok (noParseFallback wEnv wSubStr (lineCountOf wSubStr)) :=
  ⟨rfl, rfl⟩

/-- C1 (amended): whenever the reference fails to parse, `compare_ast`
catches the error and returns the heuristic no-parse fallback result
computed from the submission text — the same path as for a submission
parse failure; it never propagates the parse error itself. -/
theorem claim1_fallback_on_reference_error (env : PyEnv) (u c : String) (e : SyntaxErr)
    (hc : env.parse c = Except.error e) :
    compare_ast env u c = Except.ok (noParseFallback env u (lineCountOf u)) := by
  unfold compare_ast
  rcases hu : env.parse u with e2 | ut <;> rw [hc]

/-- C1, witness for the amended theorem at a concrete input. -/
theorem claim1_witness :
    wEnv.parse wRefBad2Str = Except.error wErr ∧
    compare_ast wEnv wSelfStr wRefBad2Str =
      Except.ok (noParseFallback wEnv wSelfStr (lineCountOf wSelfStr)) :=
  ⟨rfl, claim1_fallback_on_reference_error wEnv wSelfStr wRefBad2Str wErr rfl⟩

/-- C3: every result of `compare_ast` either is an exact match with no
issues and the maximum score 27, or is not an exact match and carries at
least one issue. -/
theorem claim3_result_invariant (env : PyEnv) (u c : String) :
    ∃ r, compare_ast env u c = Except.ok r ∧
      ((r.exact_match = true ∧ r.feedback.issues = [] ∧ r.score = EXACT_MATCH_SCORE) ∨
       (r.exact_match = false ∧ 0 < r.feedback.issues.length)) := by
  rcases compare_ast_shape env u c with h | ⟨s, msgs, h1, h2, _⟩
  · exact ⟨_, h, Or.inl ⟨rfl, rfl, rfl⟩⟩
  · refine ⟨_, h2, Or.inr ⟨rfl, ?_⟩⟩
    simpa [score_response, List.length_pos] using h1

/-- C7: comparing a syntactically valid input with itself yields the
exact-match response: `exact_match = true`, score `27`, empty issues. -/
theorem claim7_identity (env : PyEnv) (x : String) (t : PyTree)
    (hx : env.parse x = Except.ok t) :
    compare_ast env x x = Except.ok (score_response true EXACT_MATCH_SCORE []) ∧
    (score_response true EXACT_MATCH_SCORE []).exact_match = true ∧
    (score_response true EXACT_MATCH_SCORE []).score = 27 ∧
    (score_response true EXACT_MATCH_SCORE []).feedback.issues = [] := by
  refine ⟨?_, rfl, rfl, rfl⟩
  unfold compare_ast
  rw [hx]
  simp [parsedCompare]

/-- C7, witness at a concrete parseable input. -/
theorem claim7_witness :
    compare_ast wEnv wSelfStr wSelfStr =
      Except.ok (score_response true EXACT_MATCH_SCORE []) ∧
    (score_response true EXACT_MATCH_SCORE []).exact_match = true ∧
    (score_response true EXACT_MATCH_SCORE []).score = 27 ∧
    (score_response true EXACT_MATCH_SCORE []).feedback.issues = [] :=
  claim7_identity wEnv wSelfStr wTreePass rfl

/-- C9: when the stripped submission has fewer than 7 lines and the
result is not an exact match, the score is `0` in every tier (both
floor-division bonuses, the wrong-intent constant, and the garbage
penalty all vanish). -/
theorem claim9_short_submission_zero (env : PyEnv) (u c : String) (r : ScoreResult)
    (hlen : (pySplitLines (pyStrip u)).length < 7)
    (hok : compare_ast env u c = Except.ok r)
    (hne : r.exact_match = false) : r.score = 0 := by
  have hlc : lineCountOf u < 7 := by
    unfold lineCountOf
    omega
  rcases compare_ast_shape env u c with h | ⟨s, msgs, _, h2, h3⟩
  · rw [h] at hok
    injection hok with h'
    rw [← h'] at hne
    simp [score_response] at hne
  · rw [h2] at hok
    injection hok with h'
    subst h'
    have h8 : lineCountOf u / 8 = 0 := Nat.div_eq_of_lt (by omega)
    have h7 : lineCountOf u / 7 = 0 := Nat.div_eq_of_lt (by omega)
    rcases h3 with h | h | h | h <;>
      simp [score_response, h, HIGH_SIMILARITY_MULTIPLIER, HIGH_SIMILARITY_DIVISOR,
        INTERPRETABLE_MULTIPLIER, INTERPRETABLE_DIVISOR, VALID_WRONG_INTENT_SCORE,
        GARBAGE_MULTIPLIER, GARBAGE_DIVISOR, h8, h7]

/-- C2: when both sides parse and the canonical dumps differ, the
score is assigned by tier from the combined ratio
`0.7 * structural + 0.3 * textual` and the stripped submission's line
count: `4 * (line_count // 8)` above `0.85`, `1 * (line_count // 7)` in
`(0.3, 0.85]`, and `0` at or below `0.3`, with exactly these strict
comparisons. -/
theorem claim2_tier_scoring (env : PyEnv) (u c : String) (ut ct : PyTree)
    (hu : env.parse u = Except.ok ut) (hc : env.parse c = Except.ok ct)
    (hd : dump ut ≠ dump ct) :
    ∃ r, compare_ast env u c = Except.ok r ∧
      r.score =
        (if 0.7 * similarity_score (extract_features ut) (extract_features ct) +
              0.3 * env.seqSim (dump ut) (dump ct) > 0.85 then
           4 * ((lineCountOf u / 8 : ℕ) : ℚ)
         else if 0.7 * similarity_score (extract_features ut) (extract_features ct) +
              0.3 * env.seqSim (dump ut) (dump ct) > 0.3 then
           1 * ((lineCountOf u / 7 : ℕ) : ℚ)
         else 0) := by
  unfold compare_ast
  rw [hu, hc]
  refine ⟨_, rfl, ?_⟩
  simp only [parsedCompare]
  rw [if_neg hd]
  simp only [score_response, HIGH_SIMILARITY_THRESHOLD, HIGH_SIMILARITY_MULTIPLIER,
    HIGH_SIMILARITY_DIVISOR, INTERPRETABLE_THRESHOLD, INTERPRETABLE_MULTIPLIER,
    INTERPRETABLE_DIVISOR, VALID_WRONG_INTENT_SCORE]

/-- C2, witness: concrete parseable pair with differing dumps; all
hypotheses discharged at the concrete input. -/
theorem claim2_witness :
    dump wTree1 ≠ dump wTree2 ∧
    (∃ r, compare_ast wEnv wSubStr wRefStr = Except.ok r ∧
      r.score =
        (if 0.7 * similarity_score (extract_features wTree1) (extract_features wTree2) +
              0.3 * wEnv.seqSim (dump wTree1) (dump wTree2) > 0.85 then
           4 * ((lineCountOf wSubStr / 8 : ℕ) : ℚ)
         else if 0.7 * similarity_score (extract_features wTree1) (extract_features wTree2) +
              0.3 * wEnv.seqSim (dump wTree1) (dump wTree2) > 0.3 then
           1 * ((lineCountOf wSubStr / 7 : ℕ) : ℚ)
         else 0)) :=
  ⟨by decide, claim2_tier_scoring wEnv wSubStr wRefStr wTree1 wTree2 rfl rfl (by decide)⟩

/-- C4: the structural similarity equals
`1 - (Σ_{keys of either} |count₁ - count₂|) / (total₁ + total₂ + #keys)`
clamped to `[0, 1]`, and is exactly `1` when both multisets are empty. -/
theorem claim4_structural_similarity_formula (f1 f2 : List String) :
    similarity_score f1 f2 =
      if f1 = [] ∧ f2 = [] then 1
      else
        max 0 (min 1 (1 -
          (∑ k in (f1 ++ f2).toFinset,
            ((((f1.count k : ℤ) - (f2.count k : ℤ)).natAbs : ℕ) : ℚ)) /
          ((f1.length : ℚ) + (f2.length : ℚ) + ((f1 ++ f2).toFinset.card : ℚ)))) := by
  by_cases hemp : f1 = [] ∧ f2 = []
  · obtain ⟨h1, h2⟩ := hemp
    subst h1
    subst h2
    simp [similarity_score]
    norm_num
  · rw [if_neg hemp]
    have happ : f1 ++ f2 ≠ [] := fun h => hemp (List.append_eq_nil.1 h)
    simp only [similarity_score]
    have hded : ¬((f1 ++ f2).dedup = []) := by
      rw [List.dedup_eq_nil]
      exact happ
    rw [if_neg hded]
    have htot : ¬(f1.length + f2.length = 0) := by
      intro hh
      apply happ
      have := List.length_append f1 f2
      exact List.length_eq_zero.1 (by omega)
    rw [if_neg htot]
    have hfin : (f1 ++ f2).dedup.toFinset = (f1 ++ f2).toFinset := by
      ext x
      simp [List.mem_dedup]
    have hsum : (∑ k in (f1 ++ f2).toFinset,
        ((((f1.count k : ℤ) - (f2.count k : ℤ)).natAbs : ℕ) : ℚ)) =
        ((((f1 ++ f2).dedup.map (fun key =>
          ((f1.count key : ℤ) - (f2.count key : ℤ)).natAbs)).sum : ℕ) : ℚ) := by
      rw [← hfin, ← List.sum_toFinset _ (List.nodup_dedup _)]
      push_cast
      rfl
    rw [hsum, List.card_toFinset]
    push_cast
    ring_nf

/-- C6: a submission that fails to parse with heuristic quality at
most `0.3` lands in the garbage tier: score `-1 * (line_count // 7)`,
which is never positive, with the nonsensical-code message among the
issues. -/
theorem claim6_garbage_tier (env : PyEnv) (u c : String) (e : SyntaxErr)
    (hp : env.parse u = Except.error e)
    (hq : (estimate_code_quality env u).1 ≤ 0.3) :
    ∃ r, compare_ast env u c = Except.ok r ∧
      r = score_response false ((-1 : ℚ) * ((lineCountOf u / 7 : ℕ) : ℚ))
        (("Code is nonsensical or unrecognizable") :: (estimate_code_quality env u).2) ∧
      r.score ≤ 0 ∧
      ({ line_number := 1, column := none, end_line_number := none, end_column := none,
         message := "Code is nonsensical or unrecognizable" } : Issue) ∈
        r.feedback.issues := by
  have heq : noParseFallback env u (lineCountOf u) =
      score_response false ((-1 : ℚ) * ((lineCountOf u / 7 : ℕ) : ℚ))
        (("Code is nonsensical or unrecognizable") :: (estimate_code_quality env u).2) := by
    simp only [noParseFallback]
    rw [if_neg (by rw [HIGH_SIMILARITY_THRESHOLD]; exact not_lt.2 (le_trans hq (by norm_num)))]
    rw [if_neg (by rw [INTERPRETABLE_THRESHOLD]; exact not_lt.2 hq)]
    simp only [GARBAGE_MULTIPLIER, GARBAGE_DIVISOR]
  have hok : compare_ast env u c =
      Except.ok (noParseFallback env u (lineCountOf u)) := by
    unfold compare_ast
    rcases hc2 : env.parse c with e2 | ct <;> rw [hp]
  refine ⟨_, hok, heq, ?_, ?_⟩
  · rw [heq]
    simp only [score_response]
    have hnn : (0 : ℚ) ≤ ((lineCountOf u / 7 : ℕ) : ℚ) := Nat.cast_nonneg _
    nlinarith
  · rw [heq]
    simp only [score_response, List.map_cons]
    exact List.mem_cons_self _ _

/-- C6, witness: a concrete unparseable submission with heuristic
quality `0`; both hypotheses discharged at the concrete input. -/
theorem claim6_witness :
    (estimate_code_quality wEnv wGarbStr).1 ≤ 0.3 ∧
    (∃ r, compare_ast wEnv wGarbStr wRefStr = Except.ok r ∧
      r = score_response false ((-1 : ℚ) * ((lineCountOf wGarbStr / 7 : ℕ) : ℚ))
        (("Code is nonsensical or unrecognizable") :: (estimate_code_quality wEnv wGarbStr).2) ∧
      r.score ≤ 0 ∧
      ({ line_number := 1, column := none, end_line_number := none, end_column := none,
         message := "Code is nonsensical or unrecognizable" } : Issue) ∈
        r.feedback.issues) :=
  ⟨wGarbQuality, claim6_garbage_tier wEnv wGarbStr wRefStr wErr rfl wGarbQuality⟩

/-- C8: the heuristic quality estimator always returns a quality in
`[0, 1]`, equal to the accumulated pattern score times `0.8` when the
issue list is non-empty and times `1` when it is empty. -/
theorem claim8_quality_bounds (env : PyEnv) (code : String) :
    0 ≤ (estimate_code_quality env code).1 ∧ (estimate_code_quality env code).1 ≤ 1 ∧
    (estimate_code_quality env code).1 =
      (ecqSteps env code).1 * (if (ecqSteps env code).2 = [] then 1 else 0.8) := by
  obtain ⟨h0, h1⟩ := ecqSteps_bounds env code
  simp only [estimate_code_quality]
  refine ⟨?_, ?_, ?_⟩
  · by_cases h : (ecqSteps env code).2 = [] <;> simp [h] <;> nlinarith
  · by_cases h : (ecqSteps env code).2 = [] <;> simp [h] <;> nlinarith
  · by_cases h : (ecqSteps env code).2 = []
    · simp [h]
      norm_num
    · simp [h]

/-- C9, witness: the concrete two-line non-exact comparison has score
`0`; all three hypotheses discharged at the concrete input. -/
theorem claim9_witness :
    (pySplitLines (pyStrip wSubStr)).length < 7 ∧
    (score_response false
      (INTERPRETABLE_MULTIPLIER * ((lineCountOf wSubStr / INTERPRETABLE_DIVISOR : ℕ) : ℚ))
      ["Structure differs from expected solution"]).exact_match = false ∧
    (score_response false
      (INTERPRETABLE_MULTIPLIER * ((lineCountOf wSubStr / INTERPRETABLE_DIVISOR : ℕ) : ℚ))
      ["Structure differs from expected solution"]).score = 0 :=
  ⟨by decide, rfl,
    claim9_short_submission_zero wEnv wSubStr wRefStr _ (by decide) wCompareEval rfl⟩

/-- A key that is absent from an association list looks up to the
default. -/
theorem dictLookup_of_not_hasKey {α : Type} (d : List (String × α)) (k : String) (dflt : α)
    (h : dictHasKey d k = false) : dictLookup d k dflt = dflt := by
  unfold dictLookup
  have hfind : d.find? (fun p => p.1 = k) = none := by
    rw [List.find?_eq_none]
    intro p hp
    simp only [dictHasKey, List.any_eq_false] at h
    exact fun hc => by simpa [hc] using h p hp
  rw [hfind]

/-- A left fold that appends the optional output of `f` per element is
the filter-map of `f`. -/
theorem foldl_opt_append {α β : Type} (f : α → Option β) (g : List β → α → List β)
    (hg : ∀ acc a, g acc a = acc ++ (f a).toList) :
    ∀ (l : List α) (acc : List β), l.foldl g acc = acc ++ l.filterMap f
  | [], acc => by simp
  | a :: l, acc => by
    rw [List.foldl_cons, hg, foldl_opt_append f g hg l, List.filterMap_cons]
    cases hfa : f a <;> simp [hfa]

/-- Issue predicted for one reference type-count entry, following the
claim's wording: when the reference count exceeds the submission count,
one issue with the deficit message, located at the reference's
location-list entry at index `submission_count` when that index is within
the list length, else at the line-1 fallback; otherwise no issue. -/
def missingIssueSpec (user_node_types : List (String × Nat))
    (node_locations : List (String × List LocEntry)) (tc : String × Nat) : Option Issue :=
  let user_count := dictLookup user_node_types tc.1 0
  if user_count < tc.2 then
    some (if h : user_count < (dictLookup node_locations tc.1 []).length then
      { line_number := ((dictLookup node_locations tc.1 []).get ⟨user_count, h⟩).lineno
        column := some ((dictLookup node_locations tc.1 []).get ⟨user_count, h⟩).col_offset
        end_line_number :=
          some ((dictLookup node_locations tc.1 []).get ⟨user_count, h⟩).end_lineno
        end_column :=
          some ((dictLookup node_locations tc.1 []).get ⟨user_count, h⟩).end_col_offset
        message := missingMsg (tc.2 - user_count) tc.1 }
    else
      { line_number := 1
        column := none
        end_line_number := none
        end_column := none
        message := missingMsg (tc.2 - user_count) tc.1 })
  else none

/-- C5: on parseable inputs, the missing-construct differ emits, per
reference type-count entry in order, exactly the issue predicted by
`missingIssueSpec` — one issue per deficient bare type tag with the
deficit message and the claimed location choice, and none for
non-deficient tags. -/
theorem claim5_missing_nodes (env : PyEnv) (u c : String) (ut ct : PyTree)
    (hu : env.parse u = Except.ok ut) (hc : env.parse c = Except.ok ct) :
    find_missing_nodes env u c = Except.ok ((countTypes ct).filterMap
      (missingIssueSpec (countTypes ut) (locVisitT (pySplitNl c) ct []))) := by
  rw [show find_missing_nodes env u c = Except.ok (findMissingCore ut ct c) from by
    unfold find_missing_nodes
    rw [hu, hc]]
  congr 1
  simp only [findMissingCore]
  rw [← List.nil_append ((countTypes ct).filterMap
    (missingIssueSpec (countTypes ut) (locVisitT (pySplitNl c) ct [])))]
  apply foldl_opt_append
  intro acc tc
  simp only [missingIssueSpec]
  by_cases h1 : dictLookup (countTypes ut) tc.1 0 < tc.2
  · rw [if_pos h1, if_pos h1]
    by_cases h2 : dictLookup (countTypes ut) tc.1 0 <
        (dictLookup (locVisitT (pySplitNl c) ct []) tc.1 []).length
    · have hkey : dictHasKey (locVisitT (pySplitNl c) ct []) tc.1 = true := by
        rcases hK : dictHasKey (locVisitT (pySplitNl c) ct []) tc.1
        · rw [dictLookup_of_not_hasKey _ _ _ hK] at h2
          simp at h2
        · rfl
      rw [dif_pos ⟨hkey, h2⟩, dif_pos h2]
      simp
    · rw [dif_neg (fun hcontra => h2 hcontra.2), dif_neg h2]
      simp
  · rw [if_neg h1, if_neg h1]
    simp

/-- C5, witness: a concrete parseable pair (submission `Module[Pass]`
against reference `Module[Break, Pass]`), hypotheses discharged at the
concrete input. -/
theorem claim5_witness :
    find_missing_nodes wEnv wSelfStr wRefStr = Except.ok ((countTypes wTree2).filterMap
      (missingIssueSpec (countTypes wTreePass) (locVisitT (pySplitNl wRefStr) wTree2 []))) :=
  claim5_missing_nodes wEnv wSelfStr wRefStr wTreePass wTree2 rfl rfl

/-- Concrete value of the claim5 witness output: exactly one issue, for
the missing `Break` node, located at the reference's first `Break`
occurrence. -/
theorem wMissingEval :
    (countTypes wTree2).filterMap
      (missingIssueSpec (countTypes wTreePass) (locVisitT (pySplitNl wRefStr) wTree2 [])) =
    [{ line_number := 1, column := some 0, end_line_number := some 1, end_column := some 5,
       message := "Missing 1 Break node(s)" }] := by decide

/-- C10: every issue in a result of `compare_ast` itself sits at line
1 with null column and end fields; the engine never attaches any other
location. -/
theorem claim10_engine_issue_locations (env : PyEnv) (u c : String) :
    ∃ r, compare_ast env u c = Except.ok r ∧
      r.feedback.issues.all (fun i => i.line_number == 1 && i.column.isNone &&
        i.end_line_number.isNone && i.end_column.isNone) = true := by
  rcases compare_ast_shape env u c with h | ⟨s, msgs, _, h2, _⟩
  · exact ⟨_, h, score_response_issue_shape true EXACT_MATCH_SCORE []⟩
  · exact ⟨_, h2, score_response_issue_shape false s msgs⟩

end FF
